import Mathlib

/-!
Shallow embedding of `scripts/testdata.py`, a single-pass export script that
reads folder, user, discussion and post rows from a relational database and
prints one graph MERGE statement per row.  Text is modelled as `List Char`.
The four per-row print statements of the script become the pure functions
`formatTag`, `formatIdentity`, `formatDiscussionPost` and `formatPost`; the
escaping pipeline of lines 38 and 51 becomes `escapeBody`; the sequential
four-loop structure of the script becomes `runScript`.
-/

namespace TestData

/-- The newline character, Python string `"\n"`. -/
def nlChar : Char := Char.ofNat 10

/-- The horizontal-tab character, Python string `"\t"`. -/
def tabChar : Char := Char.ofNat 9

/-- The backslash character. -/
def bsChar : Char := Char.ofNat 92

/-- The single-quote character. -/
def sqChar : Char := Char.ofNat 39

/-- The double-quote character. -/
def dqChar : Char := Char.ofNat 34

/-- The lowercase letter n. -/
def nChar : Char := Char.ofNat 110

/-- The lowercase letter t. -/
def tChar : Char := Char.ofNat 116

/-- Python `str.replace` for a one-character pattern: every occurrence of
`pat` is replaced by `rep`, scanning left to right.  All four `.replace`
calls on lines 38 and 51 of `testdata.py` use one-character patterns, for
which Python replacement is exactly this character-wise substitution. -/
def pyReplaceChar (pat : Char) (rep : List Char) : List Char → List Char
  | [] => []
  | c :: rest => (if c = pat then rep else [c]) ++ pyReplaceChar pat rep rest

/-- The escaping pipeline applied to discussion bodies (line 38) and post
bodies (line 51):
`val.replace("\n", "\\n").replace("\t", "\\t").replace("'", "\'").replace("\"", "\\\"")`.
In Python source text `"\'"` denotes the one-character string consisting of a
single quote, so the third call replaces a single quote by itself; `"\\n"`,
`"\\t"` and `"\\\""` denote backslash-n, backslash-t and
backslash-doublequote. -/
def escapeBody (s : List Char) : List Char :=
  pyReplaceChar dqChar [bsChar, dqChar]
    (pyReplaceChar sqChar [sqChar]
      (pyReplaceChar tabChar [bsChar, tChar]
        (pyReplaceChar nlChar [bsChar, nChar] s)))

/-- Character-wise description of the combined effect of the pipeline:
newline becomes backslash-n, tab becomes backslash-t, double quote becomes
backslash-doublequote, every other character (single quote included) passes
through unchanged. -/
def escChar (c : Char) : List Char :=
  if c = nlChar then [bsChar, nChar]
  else if c = tabChar then [bsChar, tChar]
  else if c = dqChar then [bsChar, dqChar]
  else [c]

/-- `escChar` applied pointwise across a string. -/
def escCharwise : List Char → List Char
  | [] => []
  | c :: rest => escChar c ++ escCharwise rest

/-- The discussion body composed on line 33: `val = row[1] + "\n\n" + row[2]`,
title, two newline characters, header. -/
def discussionBody (title header : List Char) : List Char :=
  title ++ [nlChar, nlChar] ++ header

/-- The tag statement printed on line 18:
`MERGE (:Tag{extId='<id>', value='<val>'})`. -/
def formatTag (id val : List Char) : List Char :=
  "MERGE (:Tag\x7bextId=".toList ++ [sqChar] ++ id ++ [sqChar]
    ++ ", value=".toList ++ [sqChar] ++ val ++ [sqChar] ++ "\x7d)".toList

/-- The identity statement printed on line 27:
`MERGE (:Identity:User{extId='<id>', email='<email>', handle='<handle>'})`. -/
def formatIdentity (id email handle : List Char) : List Char :=
  "MERGE (:Identity:User\x7bextId=".toList ++ [sqChar] ++ id ++ [sqChar]
    ++ ", email=".toList ++ [sqChar] ++ email ++ [sqChar]
    ++ ", handle=".toList ++ [sqChar] ++ handle ++ [sqChar] ++ "\x7d)".toList

/-- The discussion statement of lines 33-39: the body is title, blank line,
header, run through `escapeBody`, and the printed pattern ends with the
tag node written `(:Tag{extId: '<tagId>'})`, colon-space delimiter as in the
source f-string. -/
def formatDiscussionPost (id title header tagId userId createdAt : List Char) :
    List Char :=
  "MERGE (:Identity:User\x7bextId=".toList ++ [sqChar] ++ userId ++ [sqChar]
    ++ "\x7d)-[posted\x7bcreated_at:".toList ++ [sqChar] ++ createdAt ++ [sqChar]
    ++ "\x7d]->(:Post\x7bextId=".toList ++ [sqChar] ++ id ++ [sqChar]
    ++ ", value=".toList ++ [sqChar]
    ++ escapeBody (discussionBody title header) ++ [sqChar]
    ++ "\x7d)-[is_tagged_with]->(:Tag\x7bextId: ".toList ++ [sqChar] ++ tagId
    ++ [sqChar] ++ "\x7d)".toList

/-- The post statement of lines 44-52: the body is the post text run through
`escapeBody`. -/
def formatPost (id text userId createdAt inReplyToId : List Char) : List Char :=
  "MERGE (:Identity:User\x7bextId=".toList ++ [sqChar] ++ userId ++ [sqChar]
    ++ "\x7d)-[posted\x7bcreated_at:".toList ++ [sqChar] ++ createdAt ++ [sqChar]
    ++ "\x7d]->(:Post\x7bextId=".toList ++ [sqChar] ++ id ++ [sqChar]
    ++ ", inReplyToExtId=".toList ++ [sqChar] ++ inReplyToId ++ [sqChar]
    ++ ", value=".toList ++ [sqChar] ++ escapeBody text ++ [sqChar]
    ++ "\x7d)".toList

/-- A Python value as it can occur in a fetched row: an integer, a string,
or the null value `None`.  (Timestamps are fetched as datetime objects; for
this model their f-string rendering is taken as the string field.) -/
inductive PyVal where
  | pInt : Int → PyVal
  | pStr : List Char → PyVal
  | pNone : PyVal
deriving DecidableEq

/-- Python `str()` as applied by f-string interpolation: integers render in
decimal, strings render as themselves, `None` renders as the four
characters `None`. -/
def pyStr : PyVal → List Char
  | PyVal.pInt n => (toString n).toList
  | PyVal.pStr s => s
  | PyVal.pNone => "None".toList

/-- One iteration of the discussion loop (lines 31-39) on raw column values.
Line 33 concatenates `row[1] + "\n\n" + row[2]` with the Python `+`
operator, which requires both the title and the header to be strings; any
other value (`None` included) raises a TypeError before anything is
printed, modelled as `none`.  The remaining columns are rendered by the
f-string via `str()`. -/
def formatDiscussionRow (id title header folder_id user_id created_date : PyVal) :
    Option (List Char) :=
  match title, header with
  | PyVal.pStr t, PyVal.pStr h =>
      some (formatDiscussionPost (pyStr id) t h (pyStr folder_id)
        (pyStr user_id) (pyStr created_date))
  | _, _ => none

/-- One iteration of the post loop (lines 44-52) on raw column values.
Line 51 calls `row[1].replace(...)`, which requires the body to be a
string; any other value (`None` included) raises an AttributeError before
anything is printed, modelled as `none`.  The remaining columns are
rendered by the f-string via `str()`. -/
def formatPostRow (id text user_id created_at discussion_id : PyVal) :
    Option (List Char) :=
  match text with
  | PyVal.pStr s =>
      some (formatPost (pyStr id) s (pyStr user_id) (pyStr created_at)
        (pyStr discussion_id))
  | _ => none

/-- A row of the folder query on line 13: `select id, description from folder`.
Fields are carried already rendered to text. -/
structure TagRow where
  id : List Char
  description : List Char
deriving DecidableEq

/-- A row of the user query on line 21:
`select id, email, username from user limit 10`. -/
structure IdentityRow where
  id : List Char
  email : List Char
  username : List Char
deriving DecidableEq

/-- A row of the discussion query on line 29: `select id, title, header,
folder_id, user_id, created_date from discussion limit 10`. -/
structure DiscussionRow where
  id : List Char
  title : List Char
  header : List Char
  folder_id : List Char
  user_id : List Char
  created_date : List Char
deriving DecidableEq

/-- A row of the post query on line 42: `select id, text, user_id,
created_date, discussion_id from post limit 10`. -/
structure PostRow where
  id : List Char
  text : List Char
  user_id : List Char
  created_date : List Char
  discussion_id : List Char
deriving DecidableEq

/-- The whole script on fetched result sets: the four loops run one after
the other, in the source's order — folders (tags), users (identities),
discussions, posts — and each loop prints one statement per row in the
delivery order of its result set. -/
def runScript (folders : List TagRow) (users : List IdentityRow)
    (discussions : List DiscussionRow) (posts : List PostRow) :
    List (List Char) :=
  folders.map (fun r => formatTag r.id r.description)
    ++ users.map (fun r => formatIdentity r.id r.email r.username)
    ++ discussions.map (fun r => formatDiscussionPost r.id r.title r.header
        r.folder_id r.user_id r.created_date)
    ++ posts.map (fun r => formatPost r.id r.text r.user_id r.created_date
        r.discussion_id)

/-! ## Helper lemmas on the escaping pipeline -/

theorem pyReplaceChar_append (pat : Char) (rep : List Char) (a b : List Char) :
    pyReplaceChar pat rep (a ++ b)
      = pyReplaceChar pat rep a ++ pyReplaceChar pat rep b := by
  induction a with
  | nil => simp [pyReplaceChar]
  | cons c rest ih => simp [pyReplaceChar, ih]

theorem escapeBody_append (a b : List Char) :
    escapeBody (a ++ b) = escapeBody a ++ escapeBody b := by
  simp [escapeBody, pyReplaceChar_append]

theorem escapeBody_singleton (c : Char) : escapeBody [c] = escChar c := by
  by_cases hnl : c = nlChar
  · subst hnl; decide
  · by_cases htab : c = tabChar
    · subst htab; decide
    · by_cases hdq : c = dqChar
      · subst hdq; decide
      · by_cases hsq : c = sqChar
        · subst hsq; decide
        · simp [escapeBody, pyReplaceChar, escChar, hnl, htab, hdq, hsq]

theorem escapeBody_cons (c : Char) (s : List Char) :
    escapeBody (c :: s) = escChar c ++ escapeBody s := by
  have h : c :: s = [c] ++ s := rfl
  rw [h, escapeBody_append, escapeBody_singleton]

theorem escapeBody_eq_charwise (s : List Char) :
    escapeBody s = escCharwise s := by
  induction s with
  | nil => rfl
  | cons c rest ih => rw [escapeBody_cons, escCharwise, ih]

theorem escChar_count_sq (c : Char) :
    (escChar c).count sqChar = [c].count sqChar := by
  by_cases hnl : c = nlChar
  · subst hnl; decide
  · by_cases htab : c = tabChar
    · subst htab; decide
    · by_cases hdq : c = dqChar
      · subst hdq; decide
      · simp [escChar, hnl, htab, hdq]

theorem escapeBody_count_sq (s : List Char) :
    (escapeBody s).count sqChar = s.count sqChar := by
  induction s with
  | nil => rfl
  | cons c rest ih =>
      rw [escapeBody_cons, List.count_append, ih, escChar_count_sq]
      simp [List.count_cons]
      omega

theorem escChar_no_raw_ws (c : Char) :
    nlChar ∉ escChar c ∧ tabChar ∉ escChar c := by
  by_cases hnl : c = nlChar
  · subst hnl; decide
  · by_cases htab : c = tabChar
    · subst htab; decide
    · by_cases hdq : c = dqChar
      · subst hdq; decide
      · constructor
        · simp [escChar, hnl, htab, hdq]
          exact fun h => hnl h.symm
        · simp [escChar, hnl, htab, hdq]
          exact fun h => htab h.symm

theorem escapeBody_no_raw_ws (s : List Char) :
    nlChar ∉ escapeBody s ∧ tabChar ∉ escapeBody s := by
  induction s with
  | nil => exact ⟨List.not_mem_nil _, List.not_mem_nil _⟩
  | cons c rest ih =>
      rw [escapeBody_cons]
      constructor
      · rw [List.mem_append]
        rintro (h | h)
        · exact (escChar_no_raw_ws c).1 h
        · exact ih.1 h
      · rw [List.mem_append]
        rintro (h | h)
        · exact (escChar_no_raw_ws c).2 h
        · exact ih.2 h

theorem escChar_chain (c : Char) :
    List.Chain' (fun a b => a = bsChar → b ≠ sqChar) (escChar c) := by
  by_cases hnl : c = nlChar
  · subst hnl; rw [show escChar nlChar = [bsChar, nChar] from rfl]
    exact List.chain'_pair.mpr (fun _ => by decide)
  · by_cases htab : c = tabChar
    · subst htab; rw [show escChar tabChar = [bsChar, tChar] from rfl]
      exact List.chain'_pair.mpr (fun _ => by decide)
    · by_cases hdq : c = dqChar
      · subst hdq; rw [show escChar dqChar = [bsChar, dqChar] from rfl]
        exact List.chain'_pair.mpr (fun _ => by decide)
      · rw [show escChar c = [c] from by simp [escChar, hnl, htab, hdq]]
        exact List.chain'_singleton c

theorem escChar_getLast_ne_bs (c : Char) (hc : c ≠ bsChar) :
    ∀ x ∈ (escChar c).getLast?, x ≠ bsChar := by
  by_cases hnl : c = nlChar
  · subst hnl; intro x hx
    rw [show (escChar nlChar).getLast? = some nChar from rfl] at hx
    rw [Option.mem_some_iff] at hx
    subst hx; decide
  · by_cases htab : c = tabChar
    · subst htab; intro x hx
      rw [show (escChar tabChar).getLast? = some tChar from rfl] at hx
      rw [Option.mem_some_iff] at hx
      subst hx; decide
    · by_cases hdq : c = dqChar
      · subst hdq; intro x hx
        rw [show (escChar dqChar).getLast? = some dqChar from rfl] at hx
        rw [Option.mem_some_iff] at hx
        subst hx; decide
      · intro x hx
        rw [show escChar c = [c] from by simp [escChar, hnl, htab, hdq]] at hx
        rw [List.getLast?_singleton, Option.mem_some_iff] at hx
        subst hx; exact hc

/-- If the body itself contains no backslash, then in the escaped body a
backslash is never immediately followed by a single quote: all backslashes
in the output were introduced by the pipeline, and each is followed by
n, t or a double quote. -/
theorem escapeBody_chain (s : List Char) (hs : bsChar ∉ s) :
    List.Chain' (fun a b => a = bsChar → b ≠ sqChar) (escapeBody s) := by
  induction s with
  | nil => exact List.chain'_nil
  | cons c rest ih =>
      rw [escapeBody_cons]
      rw [List.mem_cons, not_or] at hs
      refine List.chain'_append.mpr ⟨escChar_chain c, ih hs.2, ?_⟩
      intro x hx y _ hxbs
      exact absurd hxbs (escChar_getLast_ne_bs c (fun h => hs.1 h.symm) x hx)

theorem pyReplaceChar_sq_id (s : List Char) :
    pyReplaceChar sqChar [sqChar] s = s := by
  induction s with
  | nil => rfl
  | cons c rest ih =>
      rw [pyReplaceChar, ih]
      by_cases h : c = sqChar
      · subst h; rfl
      · rw [if_neg h]; rfl

/-! ## Claim theorems -/

/-- C1: for every discussion-body and post-body text, the emitted value is
the input run through exactly four global literal substitutions in order —
newline to backslash-n, tab to backslash-t, the single-quote step, double
quote to backslash-doublequote — and no other transformation: the combined
pipeline acts character by character, leaving every character outside the
four patterns untouched. -/
theorem spec_c1_escaping_pipeline :
    (∀ body, escapeBody body
        = pyReplaceChar dqChar [bsChar, dqChar]
            (pyReplaceChar sqChar [sqChar]
              (pyReplaceChar tabChar [bsChar, tChar]
                (pyReplaceChar nlChar [bsChar, nChar] body))))
    ∧ (∀ body, escapeBody body = escCharwise body)
    ∧ (∀ id title header tagId userId createdAt : List Char,
        formatDiscussionPost id title header tagId userId createdAt
          = "MERGE (:Identity:User\x7bextId=".toList ++ [sqChar] ++ userId
            ++ [sqChar] ++ "\x7d)-[posted\x7bcreated_at:".toList ++ [sqChar]
            ++ createdAt ++ [sqChar] ++ "\x7d]->(:Post\x7bextId=".toList
            ++ [sqChar] ++ id ++ [sqChar] ++ ", value=".toList ++ [sqChar]
            ++ escapeBody (discussionBody title header) ++ [sqChar]
            ++ "\x7d)-[is_tagged_with]->(:Tag\x7bextId: ".toList ++ [sqChar]
            ++ tagId ++ [sqChar] ++ "\x7d)".toList)
    ∧ (∀ id text userId createdAt inReplyToId : List Char,
        formatPost id text userId createdAt inReplyToId
          = "MERGE (:Identity:User\x7bextId=".toList ++ [sqChar] ++ userId
            ++ [sqChar] ++ "\x7d)-[posted\x7bcreated_at:".toList ++ [sqChar]
            ++ createdAt ++ [sqChar] ++ "\x7d]->(:Post\x7bextId=".toList
            ++ [sqChar] ++ id ++ [sqChar] ++ ", inReplyToExtId=".toList
            ++ [sqChar] ++ inReplyToId ++ [sqChar] ++ ", value=".toList
            ++ [sqChar] ++ escapeBody text ++ [sqChar] ++ "\x7d)".toList) :=
  ⟨fun _ => rfl, escapeBody_eq_charwise,
    fun _ _ _ _ _ _ => rfl, fun _ _ _ _ _ => rfl⟩

/-- C2: the third escaping step is a no-op preserved literally from the
source: replacing a single quote by a single quote is the identity, the
pipeline collapses to the three effective substitutions, every single
quote of the body survives into the escaped output (the quote count is
preserved), and — whenever the body itself contains no backslash — no
single quote of the escaped output is preceded by a backslash. -/
theorem spec_c2_single_quote_noop :
    (∀ s, pyReplaceChar sqChar [sqChar] s = s)
    ∧ (∀ s, escapeBody s
        = pyReplaceChar dqChar [bsChar, dqChar]
            (pyReplaceChar tabChar [bsChar, tChar]
              (pyReplaceChar nlChar [bsChar, nChar] s)))
    ∧ (∀ s, (escapeBody s).count sqChar = s.count sqChar)
    ∧ (∀ s, bsChar ∉ s →
        List.Chain' (fun a b => a = bsChar → b ≠ sqChar) (escapeBody s)) := by
  refine ⟨pyReplaceChar_sq_id, ?_, escapeBody_count_sq, escapeBody_chain⟩
  intro s
  rw [escapeBody, pyReplaceChar_sq_id]

/-- C2 witness: the no-op step and the backslash-free adjacency property at
the concrete body consisting of the letter a followed by a single quote. -/
theorem spec_c2_single_quote_noop_witness :
    pyReplaceChar sqChar [sqChar] ("a".toList ++ [sqChar])
        = "a".toList ++ [sqChar]
    ∧ List.Chain' (fun a b => a = bsChar → b ≠ sqChar)
        (escapeBody ("a".toList ++ [sqChar])) :=
  ⟨spec_c2_single_quote_noop.1 _,
    spec_c2_single_quote_noop.2.2.2 ("a".toList ++ [sqChar]) (by decide)⟩

/-- C3: every discussion row produces exactly the line
`MERGE (:Identity:User{extId='U'})-[posted{created_at:'C'}]->(:Post{extId='I', value='B'})-[is_tagged_with]->(:Tag{extId: 'T'})`,
and the final tag node uses the colon-space delimiter after extId, not
the equals sign used everywhere else. -/
theorem spec_c3_discussion_line (id title header tagId userId createdAt : List Char) :
    formatDiscussionPost id title header tagId userId createdAt
      = "MERGE (:Identity:User\x7bextId=".toList ++ [sqChar] ++ userId
        ++ [sqChar] ++ "\x7d)-[posted\x7bcreated_at:".toList ++ [sqChar]
        ++ createdAt ++ [sqChar] ++ "\x7d]->(:Post\x7bextId=".toList
        ++ [sqChar] ++ id ++ [sqChar] ++ ", value=".toList ++ [sqChar]
        ++ escapeBody (title ++ [nlChar, nlChar] ++ header) ++ [sqChar]
        ++ "\x7d)-[is_tagged_with]->(:Tag\x7bextId: ".toList ++ [sqChar]
        ++ tagId ++ [sqChar] ++ "\x7d)".toList
    ∧ ∃ l, formatDiscussionPost id title header tagId userId createdAt
        = l ++ ("(:Tag\x7bextId: ".toList ++ [sqChar] ++ tagId ++ [sqChar]
            ++ "\x7d)".toList) := by
  constructor
  · rfl
  · refine ⟨"MERGE (:Identity:User\x7bextId=".toList ++ [sqChar] ++ userId
      ++ [sqChar] ++ "\x7d)-[posted\x7bcreated_at:".toList ++ [sqChar]
      ++ createdAt ++ [sqChar] ++ "\x7d]->(:Post\x7bextId=".toList
      ++ [sqChar] ++ id ++ [sqChar] ++ ", value=".toList ++ [sqChar]
      ++ escapeBody (discussionBody title header) ++ [sqChar]
      ++ "\x7d)-[is_tagged_with]->".toList, ?_⟩
    simp [formatDiscussionPost]

/-- C4: `formatPost(101, "line1\nline2", 3, "2024-01-01", 55)` yields
exactly the expected MERGE line, the body newline rendered as the two
characters backslash-n. -/
theorem spec_c4_post_newline_example :
    formatPost "101".toList ("line1".toList ++ [nlChar] ++ "line2".toList)
        "3".toList "2024-01-01".toList "55".toList
      = "MERGE (:Identity:User\x7bextId=".toList ++ [sqChar] ++ "3".toList
        ++ [sqChar] ++ "\x7d)-[posted\x7bcreated_at:".toList ++ [sqChar]
        ++ "2024-01-01".toList ++ [sqChar] ++ "\x7d]->(:Post\x7bextId=".toList
        ++ [sqChar] ++ "101".toList ++ [sqChar] ++ ", inReplyToExtId=".toList
        ++ [sqChar] ++ "55".toList ++ [sqChar] ++ ", value=".toList
        ++ [sqChar] ++ ("line1".toList ++ [bsChar, nChar] ++ "line2".toList)
        ++ [sqChar] ++ "\x7d)".toList := by decide

/-- C5: the discussion body handed to the escaping transformation is
exactly title, two newline characters, header, composed before any
escaping; consequently the escaped body is the escaped title, then
backslash-n backslash-n, then the escaped header. -/
theorem spec_c5_discussion_body (title header : List Char) :
    discussionBody title header = title ++ [nlChar, nlChar] ++ header
    ∧ (∀ id tagId userId createdAt : List Char,
        formatDiscussionPost id title header tagId userId createdAt
          = "MERGE (:Identity:User\x7bextId=".toList ++ [sqChar] ++ userId
            ++ [sqChar] ++ "\x7d)-[posted\x7bcreated_at:".toList ++ [sqChar]
            ++ createdAt ++ [sqChar] ++ "\x7d]->(:Post\x7bextId=".toList
            ++ [sqChar] ++ id ++ [sqChar] ++ ", value=".toList ++ [sqChar]
            ++ escapeBody (title ++ [nlChar, nlChar] ++ header) ++ [sqChar]
            ++ "\x7d)-[is_tagged_with]->(:Tag\x7bextId: ".toList ++ [sqChar]
            ++ tagId ++ [sqChar] ++ "\x7d)".toList)
    ∧ escapeBody (discussionBody title header)
        = escapeBody title ++ [bsChar, nChar, bsChar, nChar]
          ++ escapeBody header := by
  refine ⟨rfl, fun _ _ _ _ => rfl, ?_⟩
  rw [discussionBody, escapeBody_append, escapeBody_append,
    show escapeBody [nlChar, nlChar] = [bsChar, nChar, bsChar, nChar] from by decide]

/-- C6: tag and identity rows are emitted with the raw field values
verbatim between single quotes, no escaping applied; in particular the two
concrete examples of the spec hold exactly. -/
theorem spec_c6_tag_identity_verbatim :
    (∀ id val : List Char, formatTag id val
        = "MERGE (:Tag\x7bextId=".toList ++ [sqChar] ++ id ++ [sqChar]
          ++ ", value=".toList ++ [sqChar] ++ val ++ [sqChar]
          ++ "\x7d)".toList)
    ∧ (∀ id email handle : List Char, formatIdentity id email handle
        = "MERGE (:Identity:User\x7bextId=".toList ++ [sqChar] ++ id
          ++ [sqChar] ++ ", email=".toList ++ [sqChar] ++ email ++ [sqChar]
          ++ ", handle=".toList ++ [sqChar] ++ handle ++ [sqChar]
          ++ "\x7d)".toList)
    ∧ formatTag "7".toList "General".toList
        = "MERGE (:Tag\x7bextId=".toList ++ [sqChar] ++ "7".toList
          ++ [sqChar] ++ ", value=".toList ++ [sqChar] ++ "General".toList
          ++ [sqChar] ++ "\x7d)".toList
    ∧ formatIdentity "3".toList "a@b.com".toList "alice".toList
        = "MERGE (:Identity:User\x7bextId=".toList ++ [sqChar] ++ "3".toList
          ++ [sqChar] ++ ", email=".toList ++ [sqChar] ++ "a@b.com".toList
          ++ [sqChar] ++ ", handle=".toList ++ [sqChar] ++ "alice".toList
          ++ [sqChar] ++ "\x7d)".toList :=
  ⟨fun _ _ => rfl, fun _ _ _ => rfl, rfl, rfl⟩

/-- C10: the escaping transformation is not injective: a body holding one
newline character and a body holding the two literal characters
backslash-n escape to the same output, so two distinct posts can emit the
identical statement and the original body cannot be recovered from it. -/
theorem spec_c10_not_injective :
    escapeBody [nlChar] = escapeBody [bsChar, nChar]
    ∧ [nlChar] ≠ [bsChar, nChar]
    ∧ ∃ b₁ b₂ : List Char, b₁ ≠ b₂
        ∧ formatPost "1".toList b₁ "2".toList "3".toList "4".toList
          = formatPost "1".toList b₂ "2".toList "3".toList "4".toList :=
  ⟨by decide, by decide, [nlChar], [bsChar, nChar], by decide, by decide⟩

theorem notMemAppendTwo {α} {a : α} {l₁ l₂ : List α}
    (h₁ : a ∉ l₁) (h₂ : a ∉ l₂) : a ∉ l₁ ++ l₂ := by
  rw [List.mem_append]
  rintro (h | h)
  · exact h₁ h
  · exact h₂ h

/-- C7: the script emits exactly one statement per row, in delivery order
within each stream, the four streams in the fixed sequence tags,
identities, discussions, posts: the output length is the sum of the four
row counts and the statement at each position is the formatted row at the
matching position of the matching stream. -/
theorem spec_c7_ordering (folders : List TagRow) (users : List IdentityRow)
    (discussions : List DiscussionRow) (posts : List PostRow) :
    (runScript folders users discussions posts).length
        = folders.length + users.length + discussions.length + posts.length
    ∧ (∀ k, k < folders.length →
        (runScript folders users discussions posts)[k]?
          = (folders[k]?).map fun r => formatTag r.id r.description)
    ∧ (∀ k, k < users.length →
        (runScript folders users discussions posts)[folders.length + k]?
          = (users[k]?).map fun r => formatIdentity r.id r.email r.username)
    ∧ (∀ k, k < discussions.length →
        (runScript folders users discussions posts)[folders.length + users.length + k]?
          = (discussions[k]?).map fun r => formatDiscussionPost r.id r.title
              r.header r.folder_id r.user_id r.created_date)
    ∧ (∀ k, k < posts.length →
        (runScript folders users discussions
            posts)[folders.length + users.length + discussions.length + k]?
          = (posts[k]?).map fun r => formatPost r.id r.text r.user_id
              r.created_date r.discussion_id) := by
  refine ⟨?_, ?_, ?_, ?_, ?_⟩
  · simp only [runScript, List.length_append, List.length_map]
  · intro k hk
    rw [runScript, List.getElem?_append_left (by simp only [List.length_append, List.length_map]; omega),
      List.getElem?_append_left (by simp only [List.length_append, List.length_map]; omega),
      List.getElem?_append_left (by simpa using hk), List.getElem?_map]
  · intro k hk
    rw [runScript, List.getElem?_append_left (by simp only [List.length_append, List.length_map]; omega),
      List.getElem?_append_left (by simp only [List.length_append, List.length_map]; omega),
      List.getElem?_append_right (by simp only [List.length_append, List.length_map]; omega)]
    simp only [List.length_map]
    rw [Nat.add_sub_cancel_left, List.getElem?_map]
  · intro k hk
    rw [runScript, List.getElem?_append_left (by simp only [List.length_append, List.length_map]; omega),
      List.getElem?_append_right (by simp only [List.length_append, List.length_map]; omega)]
    simp only [List.length_append, List.length_map]
    rw [Nat.add_sub_cancel_left, List.getElem?_map]
  · intro k hk
    rw [runScript, List.getElem?_append_right (by simp only [List.length_append, List.length_map]; omega)]
    simp only [List.length_append, List.length_map]
    rw [Nat.add_sub_cancel_left, List.getElem?_map]

/-- C7 witness: with one row in each stream the script emits four
statements and the fourth is the formatted post row. -/
theorem spec_c7_ordering_witness :
    (runScript [⟨"1".toList, "g".toList⟩]
        [⟨"2".toList, "e".toList, "h".toList⟩]
        [⟨"3".toList, "t".toList, "hd".toList, "4".toList, "5".toList,
          "6".toList⟩]
        [⟨"7".toList, "x".toList, "8".toList, "9".toList,
          "10".toList⟩]).length = 4
    ∧ (runScript [⟨"1".toList, "g".toList⟩]
        [⟨"2".toList, "e".toList, "h".toList⟩]
        [⟨"3".toList, "t".toList, "hd".toList, "4".toList, "5".toList,
          "6".toList⟩]
        [⟨"7".toList, "x".toList, "8".toList, "9".toList,
          "10".toList⟩])[3]?
      = some (formatPost "7".toList "x".toList "8".toList "9".toList
          "10".toList) := by
  have h := spec_c7_ordering [⟨"1".toList, "g".toList⟩]
    [⟨"2".toList, "e".toList, "h".toList⟩]
    [⟨"3".toList, "t".toList, "hd".toList, "4".toList, "5".toList,
      "6".toList⟩]
    [⟨"7".toList, "x".toList, "8".toList, "9".toList, "10".toList⟩]
  refine ⟨by simpa using h.1, ?_⟩
  have h4 := h.2.2.2.2 0 (by decide)
  simpa using h4

/-- C8 counterexample: a post row whose text column is None produces no
output line at all — line 51 calls `.replace` on the body before printing,
and None has no such method (AttributeError), modelled as `none` — so it
is not the case that every None field yields a line containing the literal
characters None. -/
theorem spec_c8_body_none_counterexample :
    formatPostRow (PyVal.pInt 1) PyVal.pNone (PyVal.pInt 2)
        (PyVal.pStr "2024-01-01".toList) (PyVal.pInt 3) = none := rfl

/-- C8 amended: no error conditions are handled; a None value in a column
that is only interpolated by the f-string is rendered as the literal
characters None in that field's position of the output line, while a None
body column raises before printing (TypeError for a discussion title or
header, AttributeError for a post text) and produces no output line. -/
theorem spec_c8_none_fields (id user_id created_at discussion_id : PyVal)
    (text title header : List Char) :
    pyStr PyVal.pNone = "None".toList
    ∧ formatPostRow id (PyVal.pStr text) user_id created_at PyVal.pNone
        = some (formatPost (pyStr id) text (pyStr user_id)
            (pyStr created_at) "None".toList)
    ∧ formatDiscussionRow id (PyVal.pStr title) (PyVal.pStr header)
        PyVal.pNone PyVal.pNone PyVal.pNone
        = some (formatDiscussionPost (pyStr id) title header "None".toList
            "None".toList "None".toList)
    ∧ formatPostRow id PyVal.pNone user_id created_at discussion_id = none
    ∧ formatDiscussionRow id PyVal.pNone (PyVal.pStr header) PyVal.pNone
        PyVal.pNone PyVal.pNone = none :=
  ⟨rfl, rfl, rfl, rfl, rfl⟩

/-- C9: the escaped body contains no raw newline and no raw tab, so a
discussion statement and a post statement whose remaining scalar fields
are newline-free each occupy exactly one output line however many line
breaks or tabs the source body, title or header hold. -/
theorem spec_c9_single_line
    (s title header id tagId userId createdAt inReplyToId : List Char)
    (hid : nlChar ∉ id) (htag : nlChar ∉ tagId) (hu : nlChar ∉ userId)
    (hc : nlChar ∉ createdAt) (hr : nlChar ∉ inReplyToId) :
    nlChar ∉ escapeBody s ∧ tabChar ∉ escapeBody s
    ∧ nlChar ∉ formatPost id s userId createdAt inReplyToId
    ∧ nlChar ∉ formatDiscussionPost id title header tagId userId createdAt := by
  refine ⟨(escapeBody_no_raw_ws s).1, (escapeBody_no_raw_ws s).2, ?_, ?_⟩
  · unfold formatPost
    repeat apply notMemAppendTwo
    all_goals first
      | exact hid
      | exact hu
      | exact hc
      | exact hr
      | exact (escapeBody_no_raw_ws s).1
      | decide
  · unfold formatDiscussionPost
    repeat apply notMemAppendTwo
    all_goals first
      | exact hid
      | exact htag
      | exact hu
      | exact hc
      | exact (escapeBody_no_raw_ws (discussionBody title header)).1
      | decide

/-- C9 witness: a body, title and header holding newlines and tabs still
yield newline-free post and discussion statements for concrete
newline-free scalar fields. -/
theorem spec_c9_single_line_witness :
    nlChar ∉ escapeBody ("a".toList ++ [nlChar, tabChar] ++ "b".toList)
    ∧ tabChar ∉ escapeBody ("a".toList ++ [nlChar, tabChar] ++ "b".toList)
    ∧ nlChar ∉ formatPost "1".toList
        ("a".toList ++ [nlChar, tabChar] ++ "b".toList) "2".toList
        "3".toList "4".toList
    ∧ nlChar ∉ formatDiscussionPost "1".toList
        ("t".toList ++ [nlChar] ++ "u".toList)
        ("h".toList ++ [tabChar] ++ "i".toList)
        "5".toList "2".toList "3".toList :=
  spec_c9_single_line ("a".toList ++ [nlChar, tabChar] ++ "b".toList)
    ("t".toList ++ [nlChar] ++ "u".toList)
    ("h".toList ++ [tabChar] ++ "i".toList)
    "1".toList "5".toList "2".toList "3".toList "4".toList
    (by decide) (by decide) (by decide) (by decide) (by decide)

end TestData
